import Mathlib

/-!
Verification development for the Express finance-dashboard gateway
(`src/unnamed/part_000`).  The server aggregates five upstream capabilities
(stock quote, crypto snapshot, exchange-rate table, currency conversion,
economic indicator) behind a shared `NodeCache` with a 300-second TTL and the
helper `makeAPIRequest`.  Numbers travelling through JSON are modelled as `ℚ`;
JavaScript values that may be either provider-native strings or numbers are
modelled by `JVal`.  Time is a natural-number clock in seconds.
-/

set_option autoImplicit false

namespace Gateway

/-- A JSON scalar as JavaScript sees it: either a string or a number.
Used for envelope fields whose type (string vs number) is under scrutiny. -/
inductive JVal where
  | str (s : String)
  | num (q : ℚ)
deriving DecidableEq

/-- Whether a `JVal` is a number (and not a provider-native string). -/
def JVal.isNum : JVal → Bool
  | .num _ => true
  | .str _ => false

/-- JavaScript `a || b` on strings: the empty string is falsy. -/
def jsOr (a b : String) : String := if a = "" then b else a

/-- JavaScript `n || d` on numbers used as HTTP statuses: `0` is falsy. -/
def jsOrNat (n d : ℕ) : ℕ := if n = 0 then d else n

/-- `String.prototype.toUpperCase` restricted to the ASCII range, which is all
the routes ever feed it (ticker symbols, currency codes, indicator names). -/
def jsToUpper (s : String) : String := ⟨s.data.map Char.toUpper⟩

/-- The `Global Quote` object of an Alpha Vantage stock response.  Every field
is a string in the provider payload; the route copies them verbatim. -/
structure GlobalQuote where
  symbol01 : String
  price05 : String
  volume06 : String
  latestTradingDay07 : String
  change09 : String
  changePercent10 : String
deriving DecidableEq

/-- Body of the stock upstream response: the `Global Quote` field may hold a
non-empty quote object, an empty object, or be absent altogether. -/
inductive StockPayload where
  | quote (q : GlobalQuote)
  | emptyQuote
  | missing
deriving DecidableEq

/-- Raw body of an exchange-rate-table response.  Modelled from the spec:
the paid `v6.exchangerate-api.com` body carries `base_code` and
`conversion_rates`, the free `api.exchangerate-api.com/v4` body carries `base`
and `rates`; the route passes whichever body arrived through unchanged. -/
inductive RatesTablePayload where
  | paidShape (baseCode : String) (conversionRates : List (String × ℚ))
  | freeShape (base : String) (rates : List (String × ℚ))
deriving DecidableEq

/-- `Object.keys` of the raw rate-table body, per the provider shapes above. -/
def RatesTablePayload.fieldNames : RatesTablePayload → List String
  | .paidShape _ _ => ["base_code", "conversion_rates"]
  | .freeShape _ _ => ["base", "rates"]

/-- Raw body of a CoinGecko crypto response; the route never inspects it,
so it is kept opaque. -/
structure CryptoPayload where
  body : String
deriving DecidableEq

/-- One data point of an Alpha Vantage economic-indicator series. -/
structure EconPoint where
  date : String
  value : String
deriving DecidableEq

/-- Body of an economic-indicator response: the `data` field may be absent. -/
structure EconPayload where
  data : Option (List EconPoint)
deriving DecidableEq

/-- Body of a conversion upstream response, as a JavaScript object with two
optional fields: the paid pair endpoint supplies `conversion_rate`, the free
latest endpoint supplies `rates`. -/
structure ConvertPayload where
  conversionRateField : Option ℚ
  ratesField : Option (List (String × ℚ))
deriving DecidableEq

/-- Any raw upstream body that can sit in the shared cache. -/
inductive Payload where
  | stockP (p : StockPayload)
  | ratesP (p : RatesTablePayload)
  | cryptoP (p : CryptoPayload)
  | econP (p : EconPayload)
  | convertP (p : ConvertPayload)
deriving DecidableEq

/-- JavaScript access `payload['Global Quote']`: on a non-stock body the
field is simply absent (`undefined`). -/
def Payload.globalQuote : Payload → StockPayload
  | .stockP p => p
  | _ => .missing

/-- JavaScript access `payload.data` as used by the economic route. -/
def Payload.econData : Payload → Option (List EconPoint)
  | .econP p => p.data
  | _ => none

/-- JavaScript access `payload.conversion_rate`. -/
def Payload.conversionRate : Payload → Option ℚ
  | .convertP p => p.conversionRateField
  | _ => none

/-- JavaScript access `payload.rates`. -/
def Payload.ratesMap : Payload → Option (List (String × ℚ))
  | .convertP p => p.ratesField
  | _ => none

/-- `rates[to]`: case-sensitive key lookup in a JSON rates object. -/
def lookupRate (rs : List (String × ℚ)) (code : String) : Option ℚ :=
  (rs.find? (fun kv => kv.1 == code)).map (fun kv => kv.2)

/-- One entry of the `NodeCache`: the stored body and its absolute expiry
instant (`storedAt + 300` under the default `stdTTL: 300`). -/
structure CacheEntry where
  value : Payload
  expiresAt : ℕ
deriving DecidableEq

/-- The process-wide cache, keyed by the string cache key. -/
abbrev Cache := List (String × CacheEntry)

/-- `cache.get(key)`: the stored value, unless the entry is expired
(`node-cache` treats an entry as live while `now ≤ expiresAt`). -/
def cacheGet (c : Cache) (key : String) (now : ℕ) : Option Payload :=
  match c.find? (fun kv => kv.1 == key) with
  | some kv => if now ≤ kv.2.expiresAt then some kv.2.value else none
  | none => none

/-- `cache.set(key, value)` with the default 300-second TTL: the new entry
shadows any previous entry for the key. -/
def cacheSet (c : Cache) (key : String) (v : Payload) (now : ℕ) : Cache :=
  (key, ⟨v, now + 300⟩) :: c

/-- The network as an oracle: what the upstream provider would answer for a
given URL. -/
inductive Upstream where
  | ok (payload : Payload)
  | httpError (status : ℕ) (bodyMessage : Option String) (axiosMessage : String)
  | transportError (axiosMessage : String)
deriving DecidableEq

/-- A network environment maps each request URL to its upstream outcome. -/
abbrev Net := String → Upstream

/-- Outcome of `makeAPIRequest`: a cache hit, a fresh upstream success, or a
recovered failure carrying `error.response?.data?.message || error.message ||
'API request failed'` and `error.response?.status || 500`. -/
inductive APIResult where
  | hit (data : Payload)
  | fresh (data : Payload)
  | failure (error : String) (status : ℕ)
deriving DecidableEq

/-- Whether `makeAPIRequest` reached the network (anything but a cache hit). -/
def APIResult.calledUpstream : APIResult → Bool
  | .hit _ => false
  | _ => true

/-- `makeAPIRequest(url, cacheKey)`: serve from cache when possible; otherwise
perform the upstream call, cache the raw body on HTTP success, and recover any
error into a `failure` value without touching the cache. -/
def makeAPIRequest (net : Net) (url cacheKey : String) (c : Cache) (now : ℕ) :
    APIResult × Cache :=
  match cacheGet c cacheKey now with
  | some v => (.hit v, c)
  | none =>
    match net url with
    | .ok payload => (.fresh payload, cacheSet c cacheKey payload now)
    | .httpError status bodyMsg axiosMsg =>
        (.failure (jsOr (bodyMsg.getD "") (jsOr axiosMsg "API request failed"))
          (jsOrNat status 500), c)
    | .transportError axiosMsg =>
        (.failure (jsOr axiosMsg "API request failed") 500, c)

/-- The two credential values read once from the environment at startup
(`ALPHA_VANTAGE_API_KEY`, `EXCHANGE_API_KEY`, the latter defaulting to `""`). -/
structure Config where
  alphaVantageApiKey : String
  exchangeApiKey : String
deriving DecidableEq

/-- JavaScript truthiness of `EXCHANGE_API_KEY`: the empty string is falsy. -/
def Config.hasExchangeKey (cfg : Config) : Bool := cfg.exchangeApiKey != ""

/-- `parseFloat(x.toFixed(2))`: rounding to 2 decimal places, ties toward
positive infinity as `Number.prototype.toFixed` specifies. -/
def round2 (q : ℚ) : ℚ := (⌊q * 100 + 1 / 2⌋ : ℚ) / 100

/-- The normalized stock object built by the stock route; every field is
copied from the provider quote, so the numeric-looking ones stay strings. -/
structure StockData where
  symbol : String
  price : JVal
  change : JVal
  changePercent : JVal
  volume : JVal
  lastUpdate : String
deriving DecidableEq

/-- The normalized conversion object built by the convert route. -/
structure ConvertData where
  fromCur : String
  toCur : String
  amount : JVal
  rate : JVal
  result : JVal
deriving DecidableEq

/-- The `data` field of an outward envelope: the stock and convert routes
build normalized objects, the rates and crypto routes pass the raw upstream
body through, the economic route passes a sliced data array. -/
inductive EnvData where
  | stockD (d : StockData)
  | rawD (p : Payload)
  | econD (points : List EconPoint)
  | convertD (d : ConvertData)
deriving DecidableEq

/-- The JSON body a route sends back, with `none` for fields the JavaScript
object literal omits on that path. -/
structure Envelope where
  status : ℕ
  success : Bool
  data : Option EnvData := none
  error : Option String := none
  cached : Option Bool := none
  timestamp : Option ℕ := none
  fallback : Option String := none
deriving DecidableEq

/-- Result of one gateway invocation: the response envelope, the cache state
afterwards, and the upstream URL requested (`none` when no upstream call was
attempted). -/
structure Outcome where
  envelope : Envelope
  cache : Cache
  upstreamUrl : Option String
deriving DecidableEq

/-- Whether the invocation attempted an upstream call. -/
def Outcome.upstreamCalled (o : Outcome) : Bool := o.upstreamUrl.isSome

/-- URL of the Alpha Vantage `GLOBAL_QUOTE` request. -/
def stockUrl (cfg : Config) (symbol : String) : String :=
  "https://www.alphavantage.co/query?function=GLOBAL_QUOTE&symbol=" ++ symbol
    ++ "&apikey=" ++ cfg.alphaVantageApiKey

/-- URL of the rate-table request: paid `v6` endpoint when the exchange key is
configured, free `v4` endpoint otherwise. -/
def ratesUrl (cfg : Config) (base : String) : String :=
  if cfg.hasExchangeKey then
    "https://v6.exchangerate-api.com/v6/" ++ cfg.exchangeApiKey ++ "/latest/" ++ base
  else
    "https://api.exchangerate-api.com/v4/latest/" ++ base

/-- URL of the CoinGecko simple-price request. -/
def cryptoUrl (ids : String) : String :=
  "https://api.coingecko.com/api/v3/simple/price?ids=" ++ ids
    ++ "&vs_currencies=usd&include_24hr_change=true&include_market_cap=true"

/-- The literal friendly-name table of the economic route. -/
def indicatorMap (ind : String) : Option String :=
  if ind = "GDP" then some "REAL_GDP"
  else if ind = "INFLATION" then some "INFLATION"
  else if ind = "UNEMPLOYMENT" then some "UNEMPLOYMENT"
  else if ind = "INTEREST_RATE" then some "FEDERAL_FUNDS_RATE"
  else none

/-- `indicatorMap[indicator] || indicator` on the already-uppercased name. -/
def econFunctionName (indicator : String) : String :=
  (indicatorMap indicator).getD indicator

/-- URL of the Alpha Vantage economic-indicator request. -/
def econUrl (cfg : Config) (functionName : String) : String :=
  "https://www.alphavantage.co/query?function=" ++ functionName
    ++ "&apikey=" ++ cfg.alphaVantageApiKey

/-- URL of the conversion request: paid pair endpoint when the exchange key is
configured, free latest endpoint (keyed by source currency only) otherwise. -/
def convertUrl (cfg : Config) (fromCur toCur : String) : String :=
  if cfg.hasExchangeKey then
    "https://v6.exchangerate-api.com/v6/" ++ cfg.exchangeApiKey ++ "/pair/"
      ++ fromCur ++ "/" ++ toCur
  else
    "https://api.exchangerate-api.com/v4/latest/" ++ fromCur

/-- Shared control shape of the five routes, read off `makeAPIRequest`: on a
cache hit build the success envelope with `cached := true` and no upstream
call; on a fresh fetch build it with `cached := false`; on a recovered
failure build the route error envelope.  `S` is the route success-branch
builder, `F` its failure-branch builder. -/
def runRoute (net : Net) (url key : String) (c : Cache) (now : ℕ)
    (S : Payload → Bool → Envelope) (F : String → ℕ → Envelope) : Outcome :=
  match makeAPIRequest net url key c now with
  | (.hit d, c2) => ⟨S d true, c2, none⟩
  | (.fresh d, c2) => ⟨S d false, c2, some url⟩
  | (.failure e st, c2) => ⟨F e st, c2, some url⟩

/-- Envelope built by the stock route when `makeAPIRequest` reported success:
a normalized quote when the `Global Quote` object is present and non-empty,
otherwise a 404 error envelope. -/
def stockSuccessEnv (symbol : String) (now : ℕ) (d : Payload) (wasCached : Bool) :
    Envelope :=
  match d.globalQuote with
  | .quote q =>
      { status := 200, success := true,
        data := some (.stockD ⟨q.symbol01, .str q.price05, .str q.change09,
          .str q.changePercent10, .str q.volume06, q.latestTradingDay07⟩),
        cached := some wasCached, timestamp := some now }
  | _ =>
      { status := 404, success := false,
        error := some ("Stock symbol \x27" ++ symbol ++ "\x27 not found or invalid") }

/-- The plain error envelope `res.status(result.status || 500).json(...)`
shared by the stock, crypto and convert routes. -/
def basicFailureEnv (err : String) (status : ℕ) : Envelope :=
  { status := jsOrNat status 500, success := false, error := some err }

/-- The error envelope of the rates route, which adds a `fallback` notice. -/
def ratesFailureEnv (err : String) (status : ℕ) : Envelope :=
  { status := jsOrNat status 500, success := false, error := some err,
    fallback := some "Exchange rate data temporarily unavailable" }

/-- Success envelope of the rates and crypto routes: the raw upstream body is
passed through as the envelope data. -/
def passthroughSuccessEnv (now : ℕ) (d : Payload) (wasCached : Bool) : Envelope :=
  { status := 200, success := true, data := some (.rawD d), cached := some wasCached,
    timestamp := some now }

/-- `GET /api/stock/:symbol`. -/
def stockRoute (cfg : Config) (symbolParam : String) (net : Net) (c : Cache)
    (now : ℕ) : Outcome :=
  let symbol := jsToUpper symbolParam
  runRoute net (stockUrl cfg symbol) ("stock_" ++ symbol) c now
    (stockSuccessEnv symbol now) basicFailureEnv

/-- `GET /api/exchange-rates/:base?`: the raw upstream body is passed through
as the envelope data, whichever provider branch produced it. -/
def ratesRoute (cfg : Config) (baseParam : Option String) (net : Net) (c : Cache)
    (now : ℕ) : Outcome :=
  let base := jsOr (baseParam.getD "") "USD"
  runRoute net (ratesUrl cfg base) ("exchange_" ++ base) c now
    (passthroughSuccessEnv now) ratesFailureEnv

/-- `GET /api/crypto/:ids?`: the raw upstream body is passed through. -/
def cryptoRoute (idsParam : Option String) (net : Net) (c : Cache) (now : ℕ) :
    Outcome :=
  let cryptoIds := jsOr (idsParam.getD "") "bitcoin,ethereum,cardano,polkadot,chainlink"
  runRoute net (cryptoUrl cryptoIds) ("crypto_" ++ cryptoIds) c now
    (passthroughSuccessEnv now) basicFailureEnv

/-- The 404 envelope of the economic route, sent on a missing `data` field and
also on any upstream failure. -/
def econNotFound (indicator : String) : Envelope :=
  { status := 404, success := false,
    error := some ("Economic indicator \x27" ++ indicator ++ "\x27 not found or unavailable") }

/-- Success-branch envelope of the economic route: when the `data` array is
present its first 10 points are returned (the provider lists the series
newest-first, so these are the most recent 10); otherwise the 404 envelope. -/
def econSuccessEnv (indicator : String) (now : ℕ) (d : Payload) (wasCached : Bool) :
    Envelope :=
  match d.econData with
  | some pts =>
      { status := 200, success := true, data := some (.econD (pts.take 10)),
        cached := some wasCached, timestamp := some now }
  | none => econNotFound indicator

/-- Failure branch of the economic route: the route sends its 404 envelope on
any upstream failure, ignoring the recovered message and status. -/
def econFailureEnv (indicator : String) (_e : String) (_st : ℕ) : Envelope :=
  econNotFound indicator

/-- `GET /api/economic/:indicator`. -/
def econRoute (cfg : Config) (indicatorParam : String) (net : Net) (c : Cache)
    (now : ℕ) : Outcome :=
  let indicator := jsToUpper indicatorParam
  runRoute net (econUrl cfg (econFunctionName indicator)) ("economic_" ++ indicator) c now
    (econSuccessEnv indicator now) (econFailureEnv indicator)

/-- The 404 envelope of the convert route. -/
def convertNotFound (fromCur toCur : String) : Envelope :=
  { status := 404, success := false,
    error := some ("Conversion rate from " ++ fromCur ++ " to " ++ toCur ++ " not available") }

/-- `conversionRate` as the convert route resolves it: the `conversion_rate`
field on the paid branch, `rates[to]` on the free branch. -/
def effectiveConversionRate (cfg : Config) (d : Payload) (toCur : String) : Option ℚ :=
  if cfg.hasExchangeKey then d.conversionRate
  else d.ratesMap.bind (fun rs => lookupRate rs toCur)

/-- Envelope built by the convert route when `makeAPIRequest` reported
success: `if (conversionRate)` makes an absent or zero rate fall through to
the 404 envelope. -/
def convertSuccessEnv (cfg : Config) (fromCur toCur : String) (amount : ℚ)
    (now : ℕ) (d : Payload) (wasCached : Bool) : Envelope :=
  match effectiveConversionRate cfg d toCur with
  | some rate =>
      if rate = 0 then convertNotFound fromCur toCur
      else
        { status := 200, success := true,
          data := some (.convertD ⟨fromCur, toCur, .num amount, .num rate,
            .num (round2 (amount * rate))⟩),
          cached := some wasCached, timestamp := some now }
  | none => convertNotFound fromCur toCur

/-- `GET /api/convert/:from/:to/:amount`; `amount` stands for the value
`parseFloat` extracts from the path segment. -/
def convertRoute (cfg : Config) (fromCur toCur : String) (amount : ℚ) (net : Net)
    (c : Cache) (now : ℕ) : Outcome :=
  runRoute net (convertUrl cfg fromCur toCur) ("convert_" ++ fromCur ++ "_" ++ toCur) c now
    (convertSuccessEnv cfg fromCur toCur amount now) basicFailureEnv

/-- A gateway request: one constructor per cached API route, holding the path
parameters exactly as the caller supplied them. -/
inductive Request where
  | stock (symbol : String)
  | rates (base : Option String)
  | crypto (ids : Option String)
  | econ (indicator : String)
  | convert (fromCur toCur : String) (amount : ℚ)
deriving DecidableEq

/-- The cache key each route computes for a request. -/
def Request.cacheKey : Request → String
  | .stock s => "stock_" ++ jsToUpper s
  | .rates b => "exchange_" ++ jsOr (b.getD "") "USD"
  | .crypto ids => "crypto_" ++ jsOr (ids.getD "") "bitcoin,ethereum,cardano,polkadot,chainlink"
  | .econ ind => "economic_" ++ jsToUpper ind
  | .convert f t _ => "convert_" ++ f ++ "_" ++ t

/-- The gateway: dispatch a request to its route.  Every route is a total
function into `Outcome`, mirroring the try/catch recovery of the source. -/
def handle (cfg : Config) (req : Request) (net : Net) (c : Cache) (now : ℕ) :
    Outcome :=
  match req with
  | .stock s => stockRoute cfg s net c now
  | .rates b => ratesRoute cfg b net c now
  | .crypto ids => cryptoRoute ids net c now
  | .econ ind => econRoute cfg ind net c now
  | .convert f t a => convertRoute cfg f t a net c now

/-- Whether an upstream outcome is a failure (transport or HTTP error). -/
def Upstream.isError : Upstream → Bool
  | .ok _ => false
  | _ => true

theorem jsOr_ne_empty (a : String) {b : String} (hb : b ≠ "") : jsOr a b ≠ "" := by
  unfold jsOr
  split
  · exact hb
  · assumption

theorem cacheGet_cacheSet_self {c : Cache} {key : String} {v : Payload}
    {now now2 : ℕ} (h : now2 ≤ now + 300) :
    cacheGet (cacheSet c key v now) key now2 = some v := by
  unfold cacheGet cacheSet
  simp [List.find?, h]

theorem makeAPIRequest_hit {net : Net} {url key : String} {c : Cache} {now : ℕ}
    {v : Payload} (h : cacheGet c key now = some v) :
    makeAPIRequest net url key c now = (.hit v, c) := by
  unfold makeAPIRequest
  rw [h]

theorem makeAPIRequest_miss_ok {net : Net} {url key : String} {c : Cache}
    {now : ℕ} {p : Payload} (hmiss : cacheGet c key now = none)
    (hok : net url = .ok p) :
    makeAPIRequest net url key c now = (.fresh p, cacheSet c key p now) := by
  unfold makeAPIRequest
  rw [hmiss, hok]

theorem makeAPIRequest_fresh_inv {net : Net} {url key : String} {c c2 : Cache}
    {now : ℕ} {d : Payload}
    (h : makeAPIRequest net url key c now = (.fresh d, c2)) :
    cacheGet c key now = none ∧ net url = .ok d ∧ c2 = cacheSet c key d now := by
  unfold makeAPIRequest at h
  cases hget : cacheGet c key now with
  | some v => rw [hget] at h; simp at h
  | none =>
    rw [hget] at h
    cases hnet : net url with
    | ok p =>
      rw [hnet] at h
      simp only [Prod.mk.injEq, APIResult.fresh.injEq] at h
      obtain ⟨hpd, hc⟩ := h
      subst hpd
      exact ⟨rfl, rfl, hc.symm⟩
    | httpError st bm am => rw [hnet] at h; simp at h
    | transportError am => rw [hnet] at h; simp at h

theorem makeAPIRequest_cache_of_error {net : Net} {url key : String} {c : Cache}
    {now : ℕ} (h : (net url).isError = true) :
    (makeAPIRequest net url key c now).2 = c := by
  unfold makeAPIRequest
  cases hget : cacheGet c key now with
  | some v => rfl
  | none =>
    cases hnet : net url with
    | ok p => rw [hnet] at h; simp [Upstream.isError] at h
    | httpError st bm am => rfl
    | transportError am => rfl

theorem makeAPIRequest_failure_error_ne {net : Net} {url key : String}
    {c c2 : Cache} {now : ℕ} {e : String} {st : ℕ}
    (h : makeAPIRequest net url key c now = (.failure e st, c2)) : e ≠ "" := by
  unfold makeAPIRequest at h
  cases hget : cacheGet c key now with
  | some v => rw [hget] at h; simp at h
  | none =>
    rw [hget] at h
    cases hnet : net url with
    | ok p => rw [hnet] at h; simp at h
    | httpError st2 bm am =>
      rw [hnet] at h
      simp only [Prod.mk.injEq, APIResult.failure.injEq] at h
      rw [← h.1.1]
      exact jsOr_ne_empty _ (jsOr_ne_empty _ (by decide))
    | transportError am =>
      rw [hnet] at h
      simp only [Prod.mk.injEq, APIResult.failure.injEq] at h
      rw [← h.1.1]
      exact jsOr_ne_empty _ (by decide)

theorem makeAPIRequest_hit_inv {net : Net} {url key : String} {c c2 : Cache}
    {now : ℕ} {v : Payload}
    (h : makeAPIRequest net url key c now = (.hit v, c2)) :
    cacheGet c key now = some v ∧ c2 = c := by
  unfold makeAPIRequest at h
  cases hget : cacheGet c key now with
  | some w =>
    rw [hget] at h
    simp only [Prod.mk.injEq, APIResult.hit.injEq] at h
    obtain ⟨hv, hc⟩ := h
    subst hv
    exact ⟨rfl, hc.symm⟩
  | none =>
    rw [hget] at h
    cases hnet : net url with
    | ok p => rw [hnet] at h; simp at h
    | httpError st bm am => rw [hnet] at h; simp at h
    | transportError am => rw [hnet] at h; simp at h

theorem makeAPIRequest_failure_inv {net : Net} {url key : String} {c c2 : Cache}
    {now : ℕ} {e : String} {st : ℕ}
    (h : makeAPIRequest net url key c now = (.failure e st, c2)) :
    cacheGet c key now = none ∧ (net url).isError = true ∧ c2 = c := by
  unfold makeAPIRequest at h
  cases hget : cacheGet c key now with
  | some w => rw [hget] at h; simp at h
  | none =>
    rw [hget] at h
    cases hnet : net url with
    | ok p => rw [hnet] at h; simp at h
    | httpError st2 bm am =>
      rw [hnet] at h
      simp only [Prod.mk.injEq] at h
      exact ⟨rfl, rfl, h.2.symm⟩
    | transportError am =>
      rw [hnet] at h
      simp only [Prod.mk.injEq] at h
      exact ⟨rfl, rfl, h.2.symm⟩

theorem string_append_ne_empty {a : String} (b : String) (ha : a ≠ "") :
    a ++ b ≠ "" := by
  intro h
  apply ha
  cases a with
  | mk la =>
    cases b with
    | mk lb =>
      have hd : la ++ lb = ([] : List Char) := congrArg String.data h
      rcases List.append_eq_nil.mp hd with ⟨h1, -⟩
      rw [h1]

theorem runRoute_hit {net : Net} {url key : String} {c : Cache} {now : ℕ}
    {S : Payload → Bool → Envelope} {F : String → ℕ → Envelope} {v : Payload}
    (h : cacheGet c key now = some v) :
    runRoute net url key c now S F = ⟨S v true, c, none⟩ := by
  unfold runRoute
  rw [makeAPIRequest_hit h]

theorem runRoute_miss_ok {net : Net} {url key : String} {c : Cache} {now : ℕ}
    {S : Payload → Bool → Envelope} {F : String → ℕ → Envelope} {p : Payload}
    (hmiss : cacheGet c key now = none) (hok : net url = .ok p) :
    runRoute net url key c now S F = ⟨S p false, cacheSet c key p now, some url⟩ := by
  unfold runRoute
  rw [makeAPIRequest_miss_ok hmiss hok]

theorem runRoute_cache_of_error {net : Net} {url key : String} {c : Cache}
    {now : ℕ} {S : Payload → Bool → Envelope} {F : String → ℕ → Envelope}
    (h : (net url).isError = true) :
    (runRoute net url key c now S F).cache = c := by
  have h2 := @makeAPIRequest_cache_of_error net url key c now h
  unfold runRoute
  rcases hmk : makeAPIRequest net url key c now with ⟨r, c2⟩
  rw [hmk] at h2
  cases r <;> simpa using h2

theorem runRoute_upstreamUrl {net : Net} {url key : String} {c : Cache}
    {now : ℕ} {S : Payload → Bool → Envelope} {F : String → ℕ → Envelope} :
    (runRoute net url key c now S F).upstreamUrl = none ∨
    (runRoute net url key c now S F).upstreamUrl = some url := by
  unfold runRoute
  rcases hmk : makeAPIRequest net url key c now with ⟨r, c2⟩
  cases r <;> simp

theorem runRoute_upstream_of_miss {net : Net} {url key : String} {c : Cache}
    {now : ℕ} {S : Payload → Bool → Envelope} {F : String → ℕ → Envelope}
    (hmiss : cacheGet c key now = none) :
    (runRoute net url key c now S F).upstreamUrl = some url := by
  unfold runRoute
  rcases hmk : makeAPIRequest net url key c now with ⟨r, c2⟩
  cases r with
  | hit v =>
    obtain ⟨hg, -⟩ := makeAPIRequest_hit_inv hmk
    rw [hmiss] at hg
    exact absurd hg (by simp)
  | fresh d => simp
  | failure e st => simp

theorem runRoute_error_msg {net : Net} {url key : String} {c : Cache} {now : ℕ}
    {S : Payload → Bool → Envelope} {F : String → ℕ → Envelope}
    (hS : ∀ d b, (S d b).success = false → ∃ m, (S d b).error = some m ∧ m ≠ "")
    (hF : ∀ e st, e ≠ "" → (F e st).success = false →
      ∃ m, (F e st).error = some m ∧ m ≠ "")
    (hfail : (runRoute net url key c now S F).envelope.success = false) :
    ∃ m, (runRoute net url key c now S F).envelope.error = some m ∧ m ≠ "" := by
  unfold runRoute at hfail ⊢
  rcases hmk : makeAPIRequest net url key c now with ⟨r, c2⟩
  rw [hmk] at hfail
  cases r with
  | hit d => exact hS d true hfail
  | fresh d => exact hS d false hfail
  | failure e st => exact hF e st (makeAPIRequest_failure_error_ne hmk) hfail

/-- A first invocation that went to the network and succeeded leaves the raw
body cached, so a second invocation for the same key within the TTL is served
from the cache whatever the network would now answer. -/
theorem runRoute_second_hit {net : Net} (net2 : Net) {url key : String}
    (url2 : String) {c : Cache}
    {now now2 : ℕ} {S1 : Payload → Bool → Envelope} {F1 : String → ℕ → Envelope}
    (S2 : Payload → Bool → Envelope) (F2 : String → ℕ → Envelope)
    (hS1 : ∀ d, (S1 d true).cached ≠ some false)
    (hF1 : ∀ e st, (F1 e st).cached ≠ some false)
    (hfresh : (runRoute net url key c now S1 F1).envelope.cached = some false)
    (httl : now2 ≤ now + 300) :
    ∃ d : Payload, net url = .ok d ∧
      (runRoute net url key c now S1 F1).envelope = S1 d false ∧
      runRoute net2 url2 key (runRoute net url key c now S1 F1).cache now2 S2 F2
        = ⟨S2 d true, (runRoute net url key c now S1 F1).cache, none⟩ := by
  rcases hmk : makeAPIRequest net url key c now with ⟨r, c2⟩
  cases r with
  | hit v =>
    have h1 : runRoute net url key c now S1 F1 = ⟨S1 v true, c2, none⟩ := by
      unfold runRoute
      rw [hmk]
    rw [h1] at hfresh
    exact absurd hfresh (hS1 v)
  | fresh d =>
    obtain ⟨hmiss, hok, hc2⟩ := makeAPIRequest_fresh_inv hmk
    have h1 : runRoute net url key c now S1 F1 = ⟨S1 d false, c2, some url⟩ := by
      unfold runRoute
      rw [hmk]
    subst hc2
    refine ⟨d, hok, by rw [h1], ?_⟩
    rw [h1]
    exact runRoute_hit (cacheGet_cacheSet_self httl)
  | failure e st =>
    have h1 : runRoute net url key c now S1 F1 = ⟨F1 e st, c2, some url⟩ := by
      unfold runRoute
      rw [hmk]
    rw [h1] at hfresh
    exact absurd hfresh (hF1 e st)

theorem convertSuccessEnv_data_inv {cfg : Config} {f t : String} {a : ℚ}
    {now : ℕ} {d : Payload} {b : Bool} {e : EnvData}
    (h : (convertSuccessEnv cfg f t a now d b).data = some e) :
    ∃ rate : ℚ,
      e = .convertD ⟨f, t, .num a, .num rate, .num (round2 (a * rate))⟩ := by
  unfold convertSuccessEnv at h
  cases hr : effectiveConversionRate cfg d t with
  | none => simp only [hr] at h; simp [convertNotFound] at h
  | some rate =>
    simp only [hr] at h
    by_cases h0 : rate = 0
    · rw [if_pos h0] at h
      simp [convertNotFound] at h
    · rw [if_neg h0] at h
      simp only [Option.some.injEq] at h
      exact ⟨rate, h.symm⟩

theorem convertRoute_data_inv {cfg : Config} {f t : String} {a : ℚ} {net : Net}
    {c : Cache} {now : ℕ} {e : EnvData}
    (h : (handle cfg (.convert f t a) net c now).envelope.data = some e) :
    ∃ rate : ℚ,
      e = .convertD ⟨f, t, .num a, .num rate, .num (round2 (a * rate))⟩ := by
  simp only [handle, convertRoute] at h
  rcases hmk : makeAPIRequest net (convertUrl cfg f t) ("convert_" ++ f ++ "_" ++ t)
    c now with ⟨r, c2⟩
  cases r with
  | hit d =>
    have h1 : runRoute net (convertUrl cfg f t) ("convert_" ++ f ++ "_" ++ t) c now
        (convertSuccessEnv cfg f t a now) basicFailureEnv
        = ⟨convertSuccessEnv cfg f t a now d true, c2, none⟩ := by
      unfold runRoute
      rw [hmk]
    rw [h1] at h
    exact convertSuccessEnv_data_inv h
  | fresh d =>
    have h1 : runRoute net (convertUrl cfg f t) ("convert_" ++ f ++ "_" ++ t) c now
        (convertSuccessEnv cfg f t a now) basicFailureEnv
        = ⟨convertSuccessEnv cfg f t a now d false, c2, some (convertUrl cfg f t)⟩ := by
      unfold runRoute
      rw [hmk]
    rw [h1] at h
    exact convertSuccessEnv_data_inv h
  | failure e2 st =>
    have h1 : runRoute net (convertUrl cfg f t) ("convert_" ++ f ++ "_" ++ t) c now
        (convertSuccessEnv cfg f t a now) basicFailureEnv
        = ⟨basicFailureEnv e2 st, c2, some (convertUrl cfg f t)⟩ := by
      unfold runRoute
      rw [hmk]
    rw [h1] at h
    simp [basicFailureEnv] at h

theorem stockSuccessEnv_data_inv {sym : String} {now : ℕ} {d : Payload}
    {b : Bool} {e : EnvData}
    (h : (stockSuccessEnv sym now d b).data = some e) :
    ∃ q : GlobalQuote,
      e = .stockD ⟨q.symbol01, .str q.price05, .str q.change09,
        .str q.changePercent10, .str q.volume06, q.latestTradingDay07⟩ := by
  unfold stockSuccessEnv at h
  cases hq : d.globalQuote with
  | quote q =>
    simp only [hq, Option.some.injEq] at h
    exact ⟨q, h.symm⟩
  | emptyQuote => simp only [hq] at h; simp at h
  | missing => simp only [hq] at h; simp at h

theorem stockRoute_data_inv {cfg : Config} {s : String} {net : Net} {c : Cache}
    {now : ℕ} {e : EnvData}
    (h : (handle cfg (.stock s) net c now).envelope.data = some e) :
    ∃ q : GlobalQuote,
      e = .stockD ⟨q.symbol01, .str q.price05, .str q.change09,
        .str q.changePercent10, .str q.volume06, q.latestTradingDay07⟩ := by
  simp only [handle, stockRoute] at h
  rcases hmk : makeAPIRequest net (stockUrl cfg (jsToUpper s))
    ("stock_" ++ jsToUpper s) c now with ⟨r, c2⟩
  cases r with
  | hit d =>
    have h1 : runRoute net (stockUrl cfg (jsToUpper s)) ("stock_" ++ jsToUpper s) c now
        (stockSuccessEnv (jsToUpper s) now) basicFailureEnv
        = ⟨stockSuccessEnv (jsToUpper s) now d true, c2, none⟩ := by
      unfold runRoute
      rw [hmk]
    rw [h1] at h
    exact stockSuccessEnv_data_inv h
  | fresh d =>
    have h1 : runRoute net (stockUrl cfg (jsToUpper s)) ("stock_" ++ jsToUpper s) c now
        (stockSuccessEnv (jsToUpper s) now) basicFailureEnv
        = ⟨stockSuccessEnv (jsToUpper s) now d false, c2, some (stockUrl cfg (jsToUpper s))⟩ := by
      unfold runRoute
      rw [hmk]
    rw [h1] at h
    exact stockSuccessEnv_data_inv h
  | failure e2 st =>
    have h1 : runRoute net (stockUrl cfg (jsToUpper s)) ("stock_" ++ jsToUpper s) c now
        (stockSuccessEnv (jsToUpper s) now) basicFailureEnv
        = ⟨basicFailureEnv e2 st, c2, some (stockUrl cfg (jsToUpper s))⟩ := by
      unfold runRoute
      rw [hmk]
    rw [h1] at h
    simp [basicFailureEnv] at h

/-- C6: for every capability and identical parameters, if a first invocation
succeeds with a fresh (non-cached) upstream fetch and the entry TTL has not
elapsed, a second invocation issues no additional upstream call and returns a
success envelope with cached = true carrying the stored value. -/
theorem c6_second_call_is_cached (cfg : Config) (req : Request) (net net2 : Net)
    (c : Cache) (now now2 : ℕ)
    (hsucc : (handle cfg req net c now).envelope.success = true)
    (hfresh : (handle cfg req net c now).envelope.cached = some false)
    (httl : now2 ≤ now + 300) :
    (handle cfg req net2 (handle cfg req net c now).cache now2).upstreamCalled = false ∧
    (handle cfg req net2 (handle cfg req net c now).cache now2).envelope.success = true ∧
    (handle cfg req net2 (handle cfg req net c now).cache now2).envelope.cached = some true ∧
    (handle cfg req net2 (handle cfg req net c now).cache now2).envelope.data
      = (handle cfg req net c now).envelope.data := by
  cases req with
  | stock s =>
    simp only [handle, stockRoute] at hsucc hfresh ⊢
    obtain ⟨d, -, henv1, h2⟩ :=
      runRoute_second_hit net2 (stockUrl cfg (jsToUpper s))
        (stockSuccessEnv (jsToUpper s) now2) basicFailureEnv
        (fun d => by cases hq : d.globalQuote <;> simp [stockSuccessEnv, hq])
        (fun e st => by simp [basicFailureEnv])
        hfresh httl
    rw [henv1] at hsucc
    rw [h2, henv1]
    cases hq : d.globalQuote with
    | quote q => simp [stockSuccessEnv, hq, Outcome.upstreamCalled]
    | emptyQuote => simp [stockSuccessEnv, hq] at hsucc
    | missing => simp [stockSuccessEnv, hq] at hsucc
  | rates b =>
    simp only [handle, ratesRoute] at hsucc hfresh ⊢
    obtain ⟨d, -, henv1, h2⟩ :=
      runRoute_second_hit net2 (ratesUrl cfg (jsOr (b.getD "") "USD"))
        (passthroughSuccessEnv now2) ratesFailureEnv
        (fun d => by simp [passthroughSuccessEnv])
        (fun e st => by simp [ratesFailureEnv])
        hfresh httl
    rw [h2, henv1]
    simp [passthroughSuccessEnv, Outcome.upstreamCalled]
  | crypto ids =>
    simp only [handle, cryptoRoute] at hsucc hfresh ⊢
    obtain ⟨d, -, henv1, h2⟩ :=
      runRoute_second_hit net2
        (cryptoUrl (jsOr (ids.getD "") "bitcoin,ethereum,cardano,polkadot,chainlink"))
        (passthroughSuccessEnv now2) basicFailureEnv
        (fun d => by simp [passthroughSuccessEnv])
        (fun e st => by simp [basicFailureEnv])
        hfresh httl
    rw [h2, henv1]
    simp [passthroughSuccessEnv, Outcome.upstreamCalled]
  | econ ind =>
    simp only [handle, econRoute] at hsucc hfresh ⊢
    obtain ⟨d, -, henv1, h2⟩ :=
      runRoute_second_hit net2
        (econUrl cfg (econFunctionName (jsToUpper ind)))
        (econSuccessEnv (jsToUpper ind) now2) (econFailureEnv (jsToUpper ind))
        (fun d => by cases hq : d.econData <;> simp [econSuccessEnv, econNotFound, hq])
        (fun e st => by simp [econFailureEnv, econNotFound])
        hfresh httl
    rw [henv1] at hsucc
    rw [h2, henv1]
    cases hq : d.econData with
    | some pts => simp [econSuccessEnv, hq, Outcome.upstreamCalled]
    | none => simp [econSuccessEnv, econNotFound, hq] at hsucc
  | convert f t a =>
    simp only [handle, convertRoute] at hsucc hfresh ⊢
    obtain ⟨d, -, henv1, h2⟩ :=
      runRoute_second_hit net2 (convertUrl cfg f t)
        (convertSuccessEnv cfg f t a now2) basicFailureEnv
        (fun d => by
          unfold convertSuccessEnv
          cases hr : effectiveConversionRate cfg d t with
          | none => simp [convertNotFound]
          | some rate => by_cases h0 : rate = 0 <;> simp [h0, convertNotFound])
        (fun e st => by simp [basicFailureEnv])
        hfresh httl
    rw [henv1] at hsucc
    rw [h2, henv1]
    cases hr : effectiveConversionRate cfg d t with
    | none => simp [convertSuccessEnv, convertNotFound, hr] at hsucc
    | some rate =>
      by_cases h0 : rate = 0
      · simp [convertSuccessEnv, convertNotFound, hr, h0] at hsucc
      · simp [convertSuccessEnv, hr, h0, Outcome.upstreamCalled]

/-- C1 counterexample: a stock invocation whose upstream HTTP call succeeds
with an empty quote object is classified as a failure (success = false), yet
the raw payload has been written to the cache under the computed key, and a
subsequent identical call is served from the cache without re-attempting the
upstream request. -/
theorem c1_empty_quote_cached_cex :
    (handle ⟨"demo", ""⟩ (.stock "ZZZZ") (fun _ => .ok (.stockP .emptyQuote))
      [] 0).envelope.success = false ∧
    cacheGet (handle ⟨"demo", ""⟩ (.stock "ZZZZ") (fun _ => .ok (.stockP .emptyQuote))
      [] 0).cache (Request.stock "ZZZZ").cacheKey 0 = some (.stockP .emptyQuote) ∧
    (handle ⟨"demo", ""⟩ (.stock "ZZZZ") (fun _ => .transportError "ECONNRESET")
      (handle ⟨"demo", ""⟩ (.stock "ZZZZ") (fun _ => .ok (.stockP .emptyQuote))
        [] 0).cache 0).upstreamCalled = false := by
  decide

/-- C1 (amended): an invocation whose upstream HTTP call itself fails writes
no cache entry for any key; but an invocation whose HTTP call succeeds and
whose result is only then classified as a failure (a stock request returning
an empty quote object) has already had the raw payload cached under the
computed key. -/
theorem c1_failure_cache_behavior :
    (∀ (cfg : Config) (req : Request) (net : Net) (c : Cache) (now : ℕ),
      (∀ u, (net u).isError = true) →
      (handle cfg req net c now).cache = c) ∧
    (∀ (cfg : Config) (s : String) (net : Net) (c : Cache) (now : ℕ),
      cacheGet c (Request.stock s).cacheKey now = none →
      net (stockUrl cfg (jsToUpper s)) = .ok (.stockP .emptyQuote) →
      (handle cfg (.stock s) net c now).envelope.success = false ∧
      cacheGet (handle cfg (.stock s) net c now).cache (Request.stock s).cacheKey now
        = some (.stockP .emptyQuote)) := by
  constructor
  · intro cfg req net c now hf
    cases req <;>
      simp only [handle, stockRoute, ratesRoute, cryptoRoute, econRoute, convertRoute] <;>
      exact runRoute_cache_of_error (hf _)
  · intro cfg s net c now hmiss hok
    simp only [Request.cacheKey] at hmiss ⊢
    simp only [handle, stockRoute]
    rw [runRoute_miss_ok hmiss hok]
    refine ⟨?_, ?_⟩
    · simp [stockSuccessEnv, Payload.globalQuote]
    · exact cacheGet_cacheSet_self (Nat.le_add_right now 300)

/-- C1 witness: with an all-failing network the crypto invocation leaves the
cache untouched, and the empty-quote stock invocation at a cold key both
fails and caches. -/
theorem c1_failure_cache_behavior_witness :
    (handle ⟨"demo", ""⟩ (.crypto none) (fun _ => .transportError "ECONNRESET") [] 5).cache
      = [] ∧
    (handle ⟨"demo", ""⟩ (.stock "ZZZZ")
      (fun u => if u = stockUrl ⟨"demo", ""⟩ "ZZZZ" then .ok (.stockP .emptyQuote)
        else .transportError "ECONNRESET") [] 0).envelope.success = false :=
  ⟨c1_failure_cache_behavior.1 ⟨"demo", ""⟩ (.crypto none)
      (fun _ => .transportError "ECONNRESET") [] 5 (fun _ => rfl),
    (c1_failure_cache_behavior.2 ⟨"demo", ""⟩ "ZZZZ"
      (fun u => if u = stockUrl ⟨"demo", ""⟩ "ZZZZ" then .ok (.stockP .emptyQuote)
        else .transportError "ECONNRESET") [] 0 (by decide) (by decide)).1⟩

/-- C2 counterexample: a same-currency conversion (from = to = USD,
amount = 100) is not short-circuited: the gateway attempts the upstream call
(so a failing network yields a failure envelope instead of rate = 1), and a
successful upstream response consumes a cache slot. -/
theorem c2_same_currency_not_shortcircuited_cex :
    (handle ⟨"demo", ""⟩ (.convert "USD" "USD" 100)
      (fun _ => .transportError "timeout of 10000ms exceeded") [] 0).upstreamCalled
      = true ∧
    (handle ⟨"demo", ""⟩ (.convert "USD" "USD" 100)
      (fun _ => .transportError "timeout of 10000ms exceeded") [] 0).envelope.success
      = false ∧
    (handle ⟨"demo", ""⟩ (.convert "USD" "USD" 100)
      (fun _ => .ok (.convertP ⟨none, some [("USD", 1)]⟩)) [] 0).cache ≠ [] := by
  decide

/-- C2 (amended): a same-currency conversion takes the ordinary path: on a
cache miss the upstream request for the pair URL is attempted, and a
successful upstream body is stored under the cache key convert_FROM_FROM. -/
theorem c2_same_currency_ordinary_path (cfg : Config) (f : String) (a : ℚ)
    (net : Net) (c : Cache) (now : ℕ)
    (hmiss : cacheGet c (Request.convert f f a).cacheKey now = none) :
    (handle cfg (.convert f f a) net c now).upstreamUrl = some (convertUrl cfg f f) ∧
    ∀ p, net (convertUrl cfg f f) = .ok p →
      cacheGet (handle cfg (.convert f f a) net c now).cache
        (Request.convert f f a).cacheKey now = some p := by
  simp only [Request.cacheKey] at hmiss ⊢
  simp only [handle, convertRoute]
  refine ⟨runRoute_upstream_of_miss hmiss, ?_⟩
  intro p hok
  rw [runRoute_miss_ok hmiss hok]
  exact cacheGet_cacheSet_self (Nat.le_add_right now 300)

/-- C2 witness: the amended claim at from = to = USD, amount = 100, on an
empty cache with a network answering the free latest endpoint. -/
theorem c2_same_currency_ordinary_path_witness :
    (handle ⟨"demo", ""⟩ (.convert "USD" "USD" 100)
      (fun _ => .ok (.convertP ⟨none, some [("USD", 1)]⟩)) [] 0).upstreamUrl
      = some (convertUrl ⟨"demo", ""⟩ "USD" "USD") ∧
    cacheGet (handle ⟨"demo", ""⟩ (.convert "USD" "USD" 100)
      (fun _ => .ok (.convertP ⟨none, some [("USD", 1)]⟩)) [] 0).cache
      (Request.convert "USD" "USD" 100).cacheKey 0
      = some (.convertP ⟨none, some [("USD", 1)]⟩) :=
  ⟨(c2_same_currency_ordinary_path ⟨"demo", ""⟩ "USD" 100
      (fun _ => .ok (.convertP ⟨none, some [("USD", 1)]⟩)) [] 0 (by decide)).1,
    (c2_same_currency_ordinary_path ⟨"demo", ""⟩ "USD" 100
      (fun _ => .ok (.convertP ⟨none, some [("USD", 1)]⟩)) [] 0 (by decide)).2
      (.convertP ⟨none, some [("USD", 1)]⟩) rfl⟩

/-- C3 counterexample: the exchange-rate-table envelope passes the raw
provider body through unchanged, so with the paid credential present the
caller sees the paid-provider field names and with it absent the free-provider
field names — the shapes differ between branches. -/
theorem c3_rates_shape_differs_cex :
    (handle ⟨"demo", "PAIDKEY"⟩ (.rates (some "USD"))
      (fun _ => .ok (.ratesP (.paidShape "USD" [("EUR", 1)]))) [] 0).envelope.data
      = some (.rawD (.ratesP (.paidShape "USD" [("EUR", 1)]))) ∧
    (handle ⟨"demo", ""⟩ (.rates (some "USD"))
      (fun _ => .ok (.ratesP (.freeShape "USD" [("EUR", 1)]))) [] 0).envelope.data
      = some (.rawD (.ratesP (.freeShape "USD" [("EUR", 1)]))) ∧
    RatesTablePayload.fieldNames (.paidShape "USD" [("EUR", 1)])
      ≠ RatesTablePayload.fieldNames (.freeShape "USD" [("EUR", 1)]) := by
  decide

/-- C3 (amended): the conversion envelope always carries the fixed normalized
shape (from, to, amount, rate, result) whichever provider branch ran, while
the exchange-rate-table envelope carries the raw provider body verbatim, so
its field names vary with the branch. -/
theorem c3_convert_uniform_rates_passthrough :
    (∀ (cfg : Config) (f t : String) (a : ℚ) (net : Net) (c : Cache) (now : ℕ)
        (e : EnvData),
      (handle cfg (.convert f t a) net c now).envelope.data = some e →
      ∃ d : ConvertData, e = .convertD d) ∧
    (∀ (cfg : Config) (b : Option String) (net : Net) (c : Cache) (now : ℕ)
        (p : Payload),
      cacheGet c (Request.rates b).cacheKey now = none →
      net (ratesUrl cfg (jsOr (b.getD "") "USD")) = .ok p →
      (handle cfg (.rates b) net c now).envelope.data = some (.rawD p)) := by
  constructor
  · intro cfg f t a net c now e h
    obtain ⟨rate, he⟩ := convertRoute_data_inv h
    exact ⟨_, he⟩
  · intro cfg b net c now p hmiss hok
    simp only [Request.cacheKey] at hmiss
    simp only [handle, ratesRoute]
    rw [runRoute_miss_ok hmiss hok]
    simp [passthroughSuccessEnv]

/-- C3 witness: the amended claim at a concrete paid-branch conversion and a
concrete free-branch rate-table request. -/
theorem c3_convert_uniform_rates_passthrough_witness :
    (∃ d : ConvertData,
      (.convertD ⟨"USD", "EUR", .num 100, .num 2, .num (round2 (100 * 2))⟩ : EnvData)
        = .convertD d) ∧
    (handle ⟨"demo", ""⟩ (.rates none)
      (fun _ => .ok (.ratesP (.freeShape "USD" [("EUR", 1)]))) [] 0).envelope.data
      = some (.rawD (.ratesP (.freeShape "USD" [("EUR", 1)]))) :=
  ⟨c3_convert_uniform_rates_passthrough.1 ⟨"demo", "PAIDKEY"⟩ "USD" "EUR" 100
      (fun _ => .ok (.convertP ⟨some 2, none⟩)) [] 0
      (.convertD ⟨"USD", "EUR", .num 100, .num 2, .num (round2 (100 * 2))⟩) rfl,
    c3_convert_uniform_rates_passthrough.2 ⟨"demo", ""⟩ none
      (fun _ => .ok (.ratesP (.freeShape "USD" [("EUR", 1)]))) [] 0
      (.ratesP (.freeShape "USD" [("EUR", 1)])) (by decide) rfl⟩

/-- C4 counterexample: conversion and rate-table requests differing only in
letter case produce distinct cache keys. -/
theorem c4_case_sensitive_keys_cex :
    (Request.convert "usd" "EUR" 100).cacheKey
      ≠ (Request.convert "USD" "EUR" 100).cacheKey ∧
    (Request.rates (some "usd")).cacheKey ≠ (Request.rates (some "USD")).cacheKey := by
  decide

/-- C4 (amended): stock and economic requests normalize parameter case before
key construction, so case variants share one key; exchange-rate-table, crypto
and conversion requests use the parameters verbatim, so case variants produce
distinct keys. -/
theorem c4_key_case_normalization (s t ind ind2 : String)
    (hs : jsToUpper s = jsToUpper t) (hi : jsToUpper ind = jsToUpper ind2) :
    (Request.stock s).cacheKey = (Request.stock t).cacheKey ∧
    (Request.econ ind).cacheKey = (Request.econ ind2).cacheKey ∧
    (Request.crypto (some "bitcoin")).cacheKey
      ≠ (Request.crypto (some "BITCOIN")).cacheKey ∧
    (Request.convert "usd" "eur" 1).cacheKey
      ≠ (Request.convert "USD" "EUR" 1).cacheKey ∧
    (Request.rates (some "usd")).cacheKey ≠ (Request.rates (some "USD")).cacheKey := by
  exact ⟨by simp [Request.cacheKey, hs], by simp [Request.cacheKey, hi],
    by decide, by decide, by decide⟩

/-- C4 witness: the amended claim at the spec example pair aapl / AAPL and at
gdp / GDP. -/
theorem c4_key_case_normalization_witness :
    (Request.stock "aapl").cacheKey = (Request.stock "AAPL").cacheKey ∧
    (Request.econ "gdp").cacheKey = (Request.econ "GDP").cacheKey :=
  ⟨(c4_key_case_normalization "aapl" "AAPL" "gdp" "GDP" (by decide) (by decide)).1,
    (c4_key_case_normalization "aapl" "AAPL" "gdp" "GDP" (by decide) (by decide)).2.1⟩

/-- C5 counterexample: a successful stock envelope carries the provider quote
fields verbatim, so its numeric-looking fields (price, change, changePercent,
volume) are provider-native strings, not numbers. -/
theorem c5_stock_fields_are_strings_cex :
    (handle ⟨"demo", ""⟩ (.stock "AAPL")
      (fun _ => .ok (.stockP (.quote
        ⟨"AAPL", "189.5000", "50000000", "2026-10-10", "1.2500", "0.66%"⟩))) [] 0).envelope.data
      = some (.stockD ⟨"AAPL", .str "189.5000", .str "1.2500", .str "0.66%",
          .str "50000000", "2026-10-10"⟩) ∧
    JVal.isNum (.str "189.5000") = false ∧
    JVal.isNum (.str "50000000") = false := by
  decide

/-- C5 (amended): the conversion envelope parses amount, rate and result to
numbers, but the stock envelope leaves price, change, changePercent and
volume as provider-native strings. -/
theorem c5_numeric_field_types :
    (∀ (cfg : Config) (f t : String) (a : ℚ) (net : Net) (c : Cache) (now : ℕ)
        (d : ConvertData),
      (handle cfg (.convert f t a) net c now).envelope.data = some (.convertD d) →
      d.amount.isNum = true ∧ d.rate.isNum = true ∧ d.result.isNum = true) ∧
    (∀ (cfg : Config) (s : String) (net : Net) (c : Cache) (now : ℕ)
        (sd : StockData),
      (handle cfg (.stock s) net c now).envelope.data = some (.stockD sd) →
      sd.price.isNum = false ∧ sd.change.isNum = false ∧
      sd.changePercent.isNum = false ∧ sd.volume.isNum = false) := by
  constructor
  · intro cfg f t a net c now d h
    obtain ⟨rate, he⟩ := convertRoute_data_inv h
    simp only [EnvData.convertD.injEq] at he
    subst he
    exact ⟨rfl, rfl, rfl⟩
  · intro cfg s net c now sd h
    obtain ⟨q, he⟩ := stockRoute_data_inv h
    simp only [EnvData.stockD.injEq] at he
    subst he
    exact ⟨rfl, rfl, rfl, rfl⟩

/-- C5 witness: the amended claim at a concrete stock run. -/
theorem c5_numeric_field_types_witness :
    JVal.isNum (StockData.price ⟨"AAPL", .str "189.5000", .str "1.2500",
        .str "0.66%", .str "50000000", "2026-10-10"⟩) = false :=
  (c5_numeric_field_types.2 ⟨"demo", ""⟩ "AAPL"
    (fun _ => .ok (.stockP (.quote
      ⟨"AAPL", "189.5000", "50000000", "2026-10-10", "1.2500", "0.66%"⟩))) [] 0
    ⟨"AAPL", .str "189.5000", .str "1.2500", .str "0.66%", .str "50000000", "2026-10-10"⟩
    (by decide)).1

/-- C6 witness: a stock request served fresh on a cold cache at time 0 and
repeated at time 1 against a network that would now fail. -/
theorem c6_second_call_is_cached_witness :
    (handle ⟨"demo", ""⟩ (.stock "AAPL")
      (fun _ => .ok (.stockP (.quote
        ⟨"AAPL", "189.5000", "50000000", "2026-10-10", "1.2500", "0.66%"⟩))) [] 0).envelope.success
      = true ∧
    (handle ⟨"demo", ""⟩ (.stock "AAPL")
      (fun _ => .transportError "ECONNRESET")
      (handle ⟨"demo", ""⟩ (.stock "AAPL")
        (fun _ => .ok (.stockP (.quote
          ⟨"AAPL", "189.5000", "50000000", "2026-10-10", "1.2500", "0.66%"⟩))) [] 0).cache
      1).upstreamCalled = false :=
  ⟨by decide,
    (c6_second_call_is_cached ⟨"demo", ""⟩ (.stock "AAPL")
      (fun _ => .ok (.stockP (.quote
        ⟨"AAPL", "189.5000", "50000000", "2026-10-10", "1.2500", "0.66%"⟩)))
      (fun _ => .transportError "ECONNRESET") [] 0 1
      (by decide) (by decide) (by decide)).1⟩

/-- C7: the economic route maps GDP, INFLATION, UNEMPLOYMENT and
INTEREST_RATE to the provider series identifiers REAL_GDP, INFLATION,
UNEMPLOYMENT and FEDERAL_FUNDS_RATE, passes an unmapped (normalized)
indicator name through verbatim in the provider URL instead of rejecting it
locally, and on success returns exactly the first 10 data points of the
series the provider sent (its most recent 10, the series being listed
newest-first). -/
theorem c7_econ_indicator_mapping (cfg : Config) (ind : String) (net : Net)
    (c : Cache) (now : ℕ) (pts : List EconPoint)
    (hmiss : cacheGet c (Request.econ ind).cacheKey now = none)
    (hok : net (econUrl cfg (econFunctionName (jsToUpper ind)))
      = .ok (.econP ⟨some pts⟩)) :
    econFunctionName "GDP" = "REAL_GDP" ∧
    econFunctionName "INFLATION" = "INFLATION" ∧
    econFunctionName "UNEMPLOYMENT" = "UNEMPLOYMENT" ∧
    econFunctionName "INTEREST_RATE" = "FEDERAL_FUNDS_RATE" ∧
    (indicatorMap (jsToUpper ind) = none →
      econFunctionName (jsToUpper ind) = jsToUpper ind) ∧
    (handle cfg (.econ ind) net c now).upstreamUrl
      = some (econUrl cfg (econFunctionName (jsToUpper ind))) ∧
    (handle cfg (.econ ind) net c now).envelope.success = true ∧
    (handle cfg (.econ ind) net c now).envelope.data = some (.econD (pts.take 10)) := by
  simp only [Request.cacheKey] at hmiss
  refine ⟨by decide, by decide, by decide, by decide, ?_, ?_, ?_, ?_⟩
  · intro hm
    simp [econFunctionName, hm]
  · simp only [handle, econRoute]
    exact runRoute_upstream_of_miss hmiss
  · simp only [handle, econRoute]
    rw [runRoute_miss_ok hmiss hok]
    simp [econSuccessEnv, Payload.econData]
  · simp only [handle, econRoute]
    rw [runRoute_miss_ok hmiss hok]
    simp [econSuccessEnv, Payload.econData]

/-- C7 witness: the unmapped indicator RETAIL_SALES on a cold cache with an
11-point series: the URL carries the name verbatim and the envelope holds the
first 10 points. -/
theorem c7_econ_indicator_mapping_witness :
    (handle ⟨"demo", ""⟩ (.econ "RETAIL_SALES")
      (fun _ => .ok (.econP ⟨some (List.replicate 11 ⟨"2026-01-01", "3.0"⟩)⟩))
      [] 0).upstreamUrl
      = some (econUrl ⟨"demo", ""⟩ (econFunctionName (jsToUpper "RETAIL_SALES"))) ∧
    (handle ⟨"demo", ""⟩ (.econ "RETAIL_SALES")
      (fun _ => .ok (.econP ⟨some (List.replicate 11 ⟨"2026-01-01", "3.0"⟩)⟩))
      [] 0).envelope.data
      = some (.econD ((List.replicate 11 (⟨"2026-01-01", "3.0"⟩ : EconPoint)).take 10)) :=
  ⟨(c7_econ_indicator_mapping ⟨"demo", ""⟩ "RETAIL_SALES"
      (fun _ => .ok (.econP ⟨some (List.replicate 11 ⟨"2026-01-01", "3.0"⟩)⟩)) [] 0
      (List.replicate 11 ⟨"2026-01-01", "3.0"⟩) (by decide) rfl).2.2.2.2.2.1,
    (c7_econ_indicator_mapping ⟨"demo", ""⟩ "RETAIL_SALES"
      (fun _ => .ok (.econP ⟨some (List.replicate 11 ⟨"2026-01-01", "3.0"⟩)⟩)) [] 0
      (List.replicate 11 ⟨"2026-01-01", "3.0"⟩) (by decide) rfl).2.2.2.2.2.2.2⟩

/-- C8: for every capability, whenever a gateway invocation produces a
non-success envelope — recovered transport errors, non-success upstream
statuses, and payloads the route cannot use all end here — the envelope
carries a non-empty error message; the routes are total functions into the
envelope type, so no fault escapes the gateway boundary. -/
theorem c8_failures_recovered_into_envelope (cfg : Config) (req : Request)
    (net : Net) (c : Cache) (now : ℕ)
    (hfail : (handle cfg req net c now).envelope.success = false) :
    ∃ m : String, (handle cfg req net c now).envelope.error = some m ∧ m ≠ "" := by
  cases req with
  | stock s =>
    simp only [handle, stockRoute] at hfail ⊢
    refine runRoute_error_msg ?_ ?_ hfail
    · intro d b hs
      cases hq : d.globalQuote with
      | quote q => simp [stockSuccessEnv, hq] at hs
      | emptyQuote =>
        exact ⟨"Stock symbol \x27" ++ jsToUpper s ++ "\x27 not found or invalid",
          by simp [stockSuccessEnv, hq],
          string_append_ne_empty _ (string_append_ne_empty _ (by decide))⟩
      | missing =>
        exact ⟨"Stock symbol \x27" ++ jsToUpper s ++ "\x27 not found or invalid",
          by simp [stockSuccessEnv, hq],
          string_append_ne_empty _ (string_append_ne_empty _ (by decide))⟩
    · intro e st he _
      exact ⟨e, rfl, he⟩
  | rates b =>
    simp only [handle, ratesRoute] at hfail ⊢
    refine runRoute_error_msg ?_ ?_ hfail
    · intro d b2 hs
      simp [passthroughSuccessEnv] at hs
    · intro e st he _
      exact ⟨e, rfl, he⟩
  | crypto ids =>
    simp only [handle, cryptoRoute] at hfail ⊢
    refine runRoute_error_msg ?_ ?_ hfail
    · intro d b2 hs
      simp [passthroughSuccessEnv] at hs
    · intro e st he _
      exact ⟨e, rfl, he⟩
  | econ ind =>
    simp only [handle, econRoute] at hfail ⊢
    refine runRoute_error_msg ?_ ?_ hfail
    · intro d b2 hs
      cases hq : d.econData with
      | some pts => simp [econSuccessEnv, hq] at hs
      | none =>
        exact ⟨"Economic indicator \x27" ++ jsToUpper ind ++ "\x27 not found or unavailable",
          by simp [econSuccessEnv, econNotFound, hq],
          string_append_ne_empty _ (string_append_ne_empty _ (by decide))⟩
    · intro e st he _
      exact ⟨"Economic indicator \x27" ++ jsToUpper ind ++ "\x27 not found or unavailable",
        rfl,
        string_append_ne_empty _ (string_append_ne_empty _ (by decide))⟩
  | convert f t a =>
    simp only [handle, convertRoute] at hfail ⊢
    refine runRoute_error_msg ?_ ?_ hfail
    · intro d b2 hs
      unfold convertSuccessEnv at hs ⊢
      cases hr : effectiveConversionRate cfg d t with
      | none =>
        simp only [hr]
        exact ⟨"Conversion rate from " ++ f ++ " to " ++ t ++ " not available",
          rfl,
          string_append_ne_empty _ (string_append_ne_empty _
            (string_append_ne_empty _ (string_append_ne_empty _ (by decide))))⟩
      | some rate =>
        simp only [hr] at hs ⊢
        by_cases h0 : rate = 0
        · rw [if_pos h0]
          exact ⟨"Conversion rate from " ++ f ++ " to " ++ t ++ " not available",
            rfl,
            string_append_ne_empty _ (string_append_ne_empty _
              (string_append_ne_empty _ (string_append_ne_empty _ (by decide))))⟩
        · rw [if_neg h0] at hs
          simp at hs
    · intro e st he _
      exact ⟨e, rfl, he⟩

/-- C8 witness: a stock request against a network timing out. -/
theorem c8_failures_recovered_into_envelope_witness :
    (handle ⟨"demo", ""⟩ (.stock "AAPL")
      (fun _ => .transportError "timeout of 10000ms exceeded") [] 0).envelope.success
      = false ∧
    (handle ⟨"demo", ""⟩ (.stock "AAPL")
      (fun _ => .transportError "timeout of 10000ms exceeded") [] 0).envelope.error
      ≠ none :=
  ⟨by decide, by
    obtain ⟨m, hm, -⟩ := c8_failures_recovered_into_envelope ⟨"demo", ""⟩ (.stock "AAPL")
      (fun _ => .transportError "timeout of 10000ms exceeded") [] 0 (by decide)
    simp [hm]⟩

/-- C9: the crypto cache key is the literal comma-separated identifier string
supplied by the caller, so the two orderings of the same identifier set have
distinct keys and a call under the second ordering goes upstream even right
after a successful call under the first. -/
theorem c9_crypto_key_is_literal (ids : String) (hids : ids ≠ "") :
    (Request.crypto (some ids)).cacheKey = "crypto_" ++ ids ∧
    (Request.crypto (some "bitcoin,ethereum")).cacheKey
      ≠ (Request.crypto (some "ethereum,bitcoin")).cacheKey ∧
    (handle ⟨"demo", ""⟩ (.crypto (some "bitcoin,ethereum"))
      (fun _ => .ok (.cryptoP ⟨"snapshot"⟩)) [] 0).upstreamCalled = true ∧
    (handle ⟨"demo", ""⟩ (.crypto (some "ethereum,bitcoin"))
      (fun _ => .ok (.cryptoP ⟨"snapshot"⟩))
      (handle ⟨"demo", ""⟩ (.crypto (some "bitcoin,ethereum"))
        (fun _ => .ok (.cryptoP ⟨"snapshot"⟩)) [] 0).cache
      0).upstreamCalled = true := by
  refine ⟨?_, by decide, by decide, by decide⟩
  simp [Request.cacheKey, jsOr, hids]

/-- C9 witness: the literal-key clause at the identifier list of the spec
example. -/
theorem c9_crypto_key_is_literal_witness :
    (Request.crypto (some "bitcoin,ethereum")).cacheKey = "crypto_" ++ "bitcoin,ethereum" :=
  (c9_crypto_key_is_literal "bitcoin,ethereum" (by decide)).1

/-- C10: the conversion cache key is built from the currency pair only, so a
second conversion of the same pair with a different amount within the TTL is
served from the cache (cached = true, no upstream call) while its result is
computed from its own amount against the cached rate. -/
theorem c10_convert_key_excludes_amount (cfg : Config) (f t : String)
    (a a2 r : ℚ) (net net2 : Net) (c : Cache) (now now2 : ℕ) (p : Payload)
    (hmiss : cacheGet c (Request.convert f t a).cacheKey now = none)
    (hok : net (convertUrl cfg f t) = .ok p)
    (hrate : effectiveConversionRate cfg p t = some r) (h0 : r ≠ 0)
    (httl : now2 ≤ now + 300) :
    (Request.convert f t a).cacheKey = (Request.convert f t a2).cacheKey ∧
    (handle cfg (.convert f t a) net c now).envelope.cached = some false ∧
    (handle cfg (.convert f t a2) net2
      (handle cfg (.convert f t a) net c now).cache now2).upstreamCalled = false ∧
    (handle cfg (.convert f t a2) net2
      (handle cfg (.convert f t a) net c now).cache now2).envelope.cached = some true ∧
    (handle cfg (.convert f t a2) net2
      (handle cfg (.convert f t a) net c now).cache now2).envelope.data
      = some (.convertD ⟨f, t, .num a2, .num r, .num (round2 (a2 * r))⟩) := by
  simp only [Request.cacheKey] at hmiss
  simp only [handle, convertRoute, Request.cacheKey]
  rw [runRoute_miss_ok hmiss hok]
  have hsecond := @runRoute_hit net2 (convertUrl cfg f t) ("convert_" ++ f ++ "_" ++ t)
    (cacheSet c ("convert_" ++ f ++ "_" ++ t) p now) now2
    (convertSuccessEnv cfg f t a2 now2) basicFailureEnv p
    (cacheGet_cacheSet_self httl)
  rw [hsecond]
  refine ⟨trivial, ?_, ?_, ?_, ?_⟩
  · simp [convertSuccessEnv, hrate, h0]
  · rfl
  · simp [convertSuccessEnv, hrate, h0]
  · simp [convertSuccessEnv, hrate, h0]

/-- C10 witness: USD to EUR at rate 2, first with amount 100, then with
amount 3 one second later against a network that would now fail. -/
theorem c10_convert_key_excludes_amount_witness :
    (handle ⟨"demo", ""⟩ (.convert "USD" "EUR" 3)
      (fun _ => .transportError "ECONNRESET")
      (handle ⟨"demo", ""⟩ (.convert "USD" "EUR" 100)
        (fun _ => .ok (.convertP ⟨none, some [("EUR", 2)]⟩)) [] 0).cache
      1).upstreamCalled = false ∧
    (handle ⟨"demo", ""⟩ (.convert "USD" "EUR" 3)
      (fun _ => .transportError "ECONNRESET")
      (handle ⟨"demo", ""⟩ (.convert "USD" "EUR" 100)
        (fun _ => .ok (.convertP ⟨none, some [("EUR", 2)]⟩)) [] 0).cache
      1).envelope.data
      = some (.convertD ⟨"USD", "EUR", .num 3, .num 2, .num (round2 (3 * 2))⟩) :=
  ⟨(c10_convert_key_excludes_amount ⟨"demo", ""⟩ "USD" "EUR" 100 3 2
      (fun _ => .ok (.convertP ⟨none, some [("EUR", 2)]⟩))
      (fun _ => .transportError "ECONNRESET") [] 0 1
      (.convertP ⟨none, some [("EUR", 2)]⟩)
      (by decide) rfl (by decide) (by decide) (by decide)).2.2.1,
    (c10_convert_key_excludes_amount ⟨"demo", ""⟩ "USD" "EUR" 100 3 2
      (fun _ => .ok (.convertP ⟨none, some [("EUR", 2)]⟩))
      (fun _ => .transportError "ECONNRESET") [] 0 1
      (.convertP ⟨none, some [("EUR", 2)]⟩)
      (by decide) rfl (by decide) (by decide) (by decide)).2.2.2.2⟩

end Gateway
